import Mathlib

/-!
Verification of `src/components/SigningModal/MultiScreenModal.js`
(provable-things/aragon).

The file embeds the pure logic of the multi-screen modal controller:
the step sequencer, the deferred-animation gate, the screen registry,
the height reconciler (pin/release), the width clamp, the close guard
and the navigation API handed to screen contents.
-/

namespace MultiScreenModal

/-- Grid unit imported from `@aragon/ui` (8 px). -/
def GU : Int := 8

/-- `DEFAULT_MODAL_WIDTH = 80 * GU` (MultiScreenModal.js line 17). -/
def DEFAULT_MODAL_WIDTH : Int := 80 * GU

/-- A screen descriptor, per the `propTypes` declaration
(title, content callback, `disableClose`, optional width).  The content
callback is opaque to the controller and is omitted here; `disableClose`
is falsy (false) when absent, `width` is `none` when absent. -/
structure ScreenDescriptor where
  title : String
  disableClose : Bool := false
  width : Option Int := none
deriving DecidableEq, Repr

/-- Modelled from the spec: the `useSteps` hook is imported from
`../../hooks` and its source is not in the repository snapshot; the spec
(§3 SequencerState, §4.1 StepSequencer) gives its state:
`{ stepCount, currentStep in [0, stepCount-1], direction in {-1,0,+1} }`. -/
structure SequencerState where
  stepCount : Nat
  step : Nat
  direction : Int
deriving DecidableEq, Repr

/-- Modelled from the spec: the sequencer starts at step 0 with a
neutral direction. -/
def initSequencer (n : Nat) : SequencerState :=
  { stepCount := n, step := 0, direction := 0 }

/-- Modelled from the spec (§4.1): `next()`: if `step < stepCount - 1`,
increments step, sets direction = +1.  Otherwise no-op. -/
def SequencerState.next (s : SequencerState) : SequencerState :=
  if s.step < s.stepCount - 1 then
    { s with step := s.step + 1, direction := 1 }
  else s

/-- Modelled from the spec (§4.1): `prev()`: if `step > 0`, decrements
step, sets direction = -1.  Otherwise no-op. -/
def SequencerState.prev (s : SequencerState) : SequencerState :=
  if 0 < s.step then
    { s with step := s.step - 1, direction := -1 }
  else s

/-- `getScreen = step => screensState[step]` (line 219): list lookup,
`none` (undefined) when the index is out of range. -/
def getScreen (screensState : List ScreenDescriptor) (step : Nat) :
    Option ScreenDescriptor :=
  screensState[step]?

-- Pointwise description of next and prev.
theorem next_of_lt {s : SequencerState} (h : s.step < s.stepCount - 1) :
    s.next = { s with step := s.step + 1, direction := 1 } := by
  unfold SequencerState.next; rw [if_pos h]

theorem next_of_ge {s : SequencerState} (h : ¬ s.step < s.stepCount - 1) :
    s.next = s := by
  unfold SequencerState.next; rw [if_neg h]

theorem prev_of_pos {s : SequencerState} (h : 0 < s.step) :
    s.prev = { s with step := s.step - 1, direction := -1 } := by
  unfold SequencerState.prev; rw [if_pos h]

theorem prev_of_zero {s : SequencerState} (h : ¬ 0 < s.step) :
    s.prev = s := by
  unfold SequencerState.prev; rw [if_neg h]

-- Iterating next from the initial state reaches min k (N-1).
theorem next_iterate_init (N : Nat) :
    ∀ k, (SequencerState.next^[k] (initSequencer N)).stepCount = N ∧
      (SequencerState.next^[k] (initSequencer N)).step = min k (N - 1) := by
  intro k
  induction k with
  | zero => simp [initSequencer]
  | succ k ih =>
    rw [Function.iterate_succ_apply']
    obtain ⟨hc, hs⟩ := ih
    by_cases h : (SequencerState.next^[k] (initSequencer N)).step <
        (SequencerState.next^[k] (initSequencer N)).stepCount - 1
    · rw [next_of_lt h]
      refine ⟨hc, ?_⟩
      rw [hc] at h
      simp only [hs] at h ⊢
      omega
    · rw [next_of_ge h]
      rw [hc] at h
      simp only [hs, not_lt] at h
      refine ⟨hc, ?_⟩
      rw [hs]
      omega

/-- Claim C1: for every sequencer with `stepCount = N ≥ 1`, `next` and
`prev` keep the step in `[0, N-1]`; `next` at step `N-1` and `prev` at
step 0 are no-ops (no wraparound, no error); and calling `next` `N-1`
times from step 0 and then once more still leaves the step at `N-1`. -/
theorem sequencer_clamp_invariant (N : Nat) (hN : 1 ≤ N) :
    (∀ s : SequencerState, s.stepCount = N → s.step ≤ N - 1 →
      s.next.step ≤ N - 1 ∧ s.prev.step ≤ N - 1) ∧
    (∀ s : SequencerState, s.stepCount = N → s.step = N - 1 → s.next = s) ∧
    (∀ s : SequencerState, s.step = 0 → s.prev = s) ∧
    ((SequencerState.next^[N - 1] (initSequencer N)).next.step = N - 1) := by
  refine ⟨?_, ?_, ?_, ?_⟩
  · intro s hc hs
    constructor
    · by_cases h : s.step < s.stepCount - 1
      · rw [next_of_lt h]
        rw [hc] at h
        show s.step + 1 ≤ N - 1
        omega
      · rw [next_of_ge h]; exact hs
    · by_cases h : 0 < s.step
      · rw [prev_of_pos h]
        show s.step - 1 ≤ N - 1
        omega
      · rw [prev_of_zero h]; exact hs
  · intro s hc hs
    apply next_of_ge
    rw [hc, hs]
    omega
  · intro s hs
    apply prev_of_zero
    omega
  · obtain ⟨hc, hs⟩ := next_iterate_init N (N - 1)
    rw [next_of_ge (by rw [hc, hs]; omega), hs]
    omega

/-- Witness for C1 at `N = 3`. -/
theorem sequencer_clamp_invariant_witness :
    (1 ≤ 3) ∧
    ((SequencerState.next^[3 - 1] (initSequencer 3)).next.step = 3 - 1) :=
  ⟨by decide, (sequencer_clamp_invariant 3 (by decide)).2.2.2⟩

/-- Claim C6: after a successful `next()` the direction is +1, after a
successful `prev()` the direction is -1, and a clamped no-op call leaves
the direction unchanged. -/
theorem sequencer_direction_spec (s : SequencerState) :
    (s.step < s.stepCount - 1 → s.next.direction = 1) ∧
    (0 < s.step → s.prev.direction = -1) ∧
    (s.stepCount - 1 ≤ s.step → s.next.direction = s.direction) ∧
    (s.step = 0 → s.prev.direction = s.direction) := by
  refine ⟨?_, ?_, ?_, ?_⟩
  · intro h; rw [next_of_lt h]
  · intro h; rw [prev_of_pos h]
  · intro h; rw [next_of_ge (by omega)]
  · intro h; rw [prev_of_zero (by omega)]

/-- Witness for C6: with two screens, `next` from step 0 sets direction
+1; a second `next` is clamped and keeps direction +1; `prev` from the
initial state at step 0 is clamped and keeps the neutral direction 0. -/
theorem sequencer_direction_spec_witness :
    (initSequencer 2).next.direction = 1 ∧
    (initSequencer 2).next.next.direction = 1 ∧
    (initSequencer 2).prev.direction = 0 := by
  refine ⟨?_, ?_, ?_⟩
  · exact (sequencer_direction_spec (initSequencer 2)).1 (by decide)
  · have h := (sequencer_direction_spec ((initSequencer 2).next)).2.2.1
      (by decide)
    rw [h]; decide
  · have h := (sequencer_direction_spec (initSequencer 2)).2.2.2 rfl
    rw [h]; rfl

/-- `noop` imported from `@aragon/ui`: a function that does nothing.
Callbacks are embedded as state transformers `σ → σ`, so `noop` is the
identity. -/
def noop {σ : Type} : σ → σ := id

/-- `handleModalClose` (lines 29-33):
`if (!disableClose) { onClose() }`. -/
def handleModalClose {σ : Type} (disableClose : Bool) (onClose : σ → σ)
    (s : σ) : σ :=
  if !disableClose then onClose s else s

/-- `MultiScreenModal.defaultProps = { onClose: noop }` (lines 62-64):
when no `onClose` prop is supplied the component uses `noop`. -/
def resolveOnClose {σ : Type} (onClose : Option (σ → σ)) : σ → σ :=
  onClose.getD noop

/-- The `disableClose` of the current screen as destructured in
`MultiScreenModal` (line 21); absent means falsy (false). -/
def currentDisableClose (screensState : List ScreenDescriptor)
    (step : Nat) : Bool :=
  ((getScreen screensState step).map ScreenDescriptor.disableClose).getD false

/-- The scenario screens of the close-guard property:
`[{title:"A", disableClose:true}, {title:"B"}]`. -/
def closeGuardScreens : List ScreenDescriptor :=
  [{ title := "A", disableClose := true }, { title := "B" }]

/-- JS `x || d` on an optional number: the default is used when the
value is absent or 0 (falsy), as in `currentScreenWidth ||
DEFAULT_MODAL_WIDTH` (line 23) and `stepScreen.width ||
DEFAULT_MODAL_WIDTH` (line 191). -/
def jsOrDefault (w : Option Int) (d : Int) : Int :=
  match w with
  | some v => if v = 0 then d else v
  | none => d

/-- The rendered screen width (lines 44 and 189-192):
`Math.min(viewportWidth, screen.width || DEFAULT_MODAL_WIDTH)`. -/
def renderedScreenWidth (viewportWidth : Int) (screen : ScreenDescriptor) :
    Int :=
  min viewportWidth (jsOrDefault screen.width DEFAULT_MODAL_WIDTH)

/-- The navigation API handed to a screen's content callback by
`renderScreen` (lines 116-120): `{ prevScreen: prev, nextScreen: next,
closeModal: onClose }`. -/
structure NavigationApi (σ : Type) where
  prevScreen : SequencerState → SequencerState
  nextScreen : SequencerState → SequencerState
  closeModal : σ → σ

/-- `renderScreen` builds the navigation API from the sequencer's
`prev`/`next` and the raw `onClose` prop of `ModalContent` (line 119) --
not from `handleModalClose`. -/
def renderScreenNav {σ : Type} (onClose : σ → σ) : NavigationApi σ :=
  { prevScreen := SequencerState.prev
    nextScreen := SequencerState.next
    closeModal := onClose }

/-- The phases reported by the react-spring `Transition` component to
its `config` function and its `onRest` callback. -/
inductive SpringPhase
  | enter
  | leave
  | update
deriving DecidableEq, Repr

/-- The named easing presets of `@aragon/ui` `springs` used by this
component. -/
inductive SpringPreset
  | swift
  | instant
  | smooth
deriving DecidableEq, Repr

/-- The height spring's config (line 134): `config={springs.swift}`. -/
def heightSpringConfig : SpringPreset := SpringPreset.swift

/-- The transition's config (lines 147-148):
`(_, state) => state === 'leave' ? springs.instant : springs.smooth`. -/
def transitionSpringConfig (state : SpringPhase) : SpringPreset :=
  if state = SpringPhase.leave then SpringPreset.instant
  else SpringPreset.smooth

/-- A transition style: opacity plus the horizontal component of the
`translate3d` transform, in px. -/
structure SlideStyle where
  opacity : Int
  translateX : Int
deriving DecidableEq, Repr

/-- The `from` style (lines 152-155): opacity 0,
`translate3d(5 * GU * direction px, 0, 0)`. -/
def fromStyle (direction : Int) : SlideStyle :=
  { opacity := 0, translateX := 5 * GU * direction }

/-- The `enter` style (lines 156-159): opacity 1,
`translate3d(0, 0, 0)`. -/
def enterStyle : SlideStyle :=
  { opacity := 1, translateX := 0 }

/-- The `leave` style (lines 160-166): opacity 0,
`translate3d(5 * GU * -direction px, 0, 0)`. -/
def leaveStyle (direction : Int) : SlideStyle :=
  { opacity := 0, translateX := 5 * GU * (-direction) }

/-- Claim C2: the close guard swallows the request when the active
screen's `disableClose` is true; otherwise it calls `onClose` exactly
once (the call counter advances by exactly one); with no `onClose`
supplied, the default no-op still completes.  On the scenario screens
`[{A, disableClose:true}, {B}]`, close at step 0 does nothing and close
at step 1 fires `onClose` exactly once. -/
theorem close_guard (d : Bool) (n : Nat) (f : Nat → Nat) :
    (handleModalClose true f n = n) ∧
    (handleModalClose false Nat.succ n = n + 1) ∧
    (handleModalClose d (resolveOnClose none) n = n) ∧
    (handleModalClose (currentDisableClose closeGuardScreens 0) Nat.succ n
      = n) ∧
    (handleModalClose (currentDisableClose closeGuardScreens 1) Nat.succ n
      = n + 1) := by
  refine ⟨rfl, rfl, ?_, rfl, rfl⟩
  cases d <;> rfl

/-- Claim C3: with a positive set width the rendered width is
`min(viewportWidth, screen.width)`; with no width it is
`min(viewportWidth, DEFAULT_MODAL_WIDTH)`; in particular
`(300, 500) ↦ 300` and `(1000, 500) ↦ 500`. -/
theorem width_clamp (V w : Int) (hw : 0 < w) (s : ScreenDescriptor) :
    (s.width = some w → renderedScreenWidth V s = min V w) ∧
    (s.width = none → renderedScreenWidth V s = min V DEFAULT_MODAL_WIDTH) ∧
    (renderedScreenWidth 300 { title := "X", width := some 500 } = 300) ∧
    (renderedScreenWidth 1000 { title := "X", width := some 500 } = 500) := by
  refine ⟨?_, ?_, by decide, by decide⟩
  · intro h
    unfold renderedScreenWidth jsOrDefault
    rw [h]
    simp only [if_neg (by omega : ¬ w = 0)]
  · intro h
    unfold renderedScreenWidth jsOrDefault
    rw [h]

/-- Witness for C3 at `V = 640`, `w = 500`. -/
theorem width_clamp_witness :
    (0 < (500 : Int)) ∧
    (renderedScreenWidth 640 { title := "X", width := some 500 }
      = min 640 500) :=
  ⟨by decide,
    (width_clamp 640 500 (by decide) { title := "X", width := some 500 }).1
      rfl⟩

/-- Claim C7: the entering screen's slide-in origin is a horizontal
displacement of `+5 * GU * direction` px and the leaving screen's
slide-out destination is `-5 * GU * direction` px; with `direction = 1`
content enters from the right (+40 px) and leaves to the left (-40 px),
and `direction = -1` reverses both. -/
theorem slide_direction (d : Int) :
    ((fromStyle d).translateX = 5 * GU * d) ∧
    ((leaveStyle d).translateX = -(5 * GU * d)) ∧
    ((fromStyle 1).translateX = 40 ∧ (leaveStyle 1).translateX = -40) ∧
    ((fromStyle (-1)).translateX = -40 ∧ (leaveStyle (-1)).translateX = 40) ∧
    ((fromStyle d).opacity = 0 ∧ enterStyle.opacity = 1 ∧
      (leaveStyle d).opacity = 0) := by
  refine ⟨rfl, ?_, by decide, by decide, rfl, rfl, rfl⟩
  unfold leaveStyle
  ring_nf

/-- Claim C8: the leave phase uses the `instant` preset, the enter and
update (idle) phases use the `smooth` preset, and the height tween uses
the `swift` preset. -/
theorem easing_presets :
    transitionSpringConfig SpringPhase.leave = SpringPreset.instant ∧
    transitionSpringConfig SpringPhase.enter = SpringPreset.smooth ∧
    transitionSpringConfig SpringPhase.update = SpringPreset.smooth ∧
    heightSpringConfig = SpringPreset.swift := by
  refine ⟨rfl, rfl, rfl, rfl⟩

/-- Claim C10: the `closeModal` callback handed to screen content is the
raw `onClose`, with no `disableClose` guard: it fires `onClose` even
when the active screen's `disableClose` is true, unlike
`handleModalClose` which is a no-op in that case. -/
theorem nav_close_bypasses_guard (n : Nat) (f : Nat → Nat) (d : Bool) :
    ((renderScreenNav f).closeModal = f) ∧
    ((renderScreenNav Nat.succ).closeModal n = n + 1) ∧
    (d = true → handleModalClose d Nat.succ n = n ∧
      (renderScreenNav Nat.succ).closeModal n = n + 1) := by
  refine ⟨rfl, rfl, ?_⟩
  intro h
  subst h
  exact ⟨rfl, rfl⟩

/-- Witness for C10: at `disableClose = true` with counter 0, the
content's `closeModal` advances the counter to 1 while the guarded
modal close leaves it at 0. -/
theorem nav_close_bypasses_guard_witness :
    handleModalClose true Nat.succ 0 = 0 ∧
    (renderScreenNav Nat.succ).closeModal 0 = 0 + 1 :=
  (nav_close_bypasses_guard 0 Nat.succ true).2.2 rfl

/-- Modelled from the spec: `useDeferredAnimation` is imported from
`../../hooks` and its source is not in the repository snapshot; the
spec (§4.3 DeferredAnimationGate) gives a boolean animate-immediately
flag, initially true. -/
def gateInit : Bool := true

/-- Modelled from the spec (§4.3): the notification mutator
(`onAnimationStart` in the component) sets the flag to false
permanently for the life of the instance. -/
def markAnimationObserved (_flag : Bool) : Bool :=
  false

/-- The local animation state of `ModalContent`: the gate's flag
(`immediateAnimation`, line 87) and the pin flag
(`applyStaticHeight`, line 85, initially false). -/
structure ContentAnimState where
  immediateAnimation : Bool
  applyStaticHeight : Bool
deriving DecidableEq, Repr

/-- The state of `ModalContent` on mount: gate flag true, no pinning. -/
def initContentAnim : ContentAnimState :=
  { immediateAnimation := gateInit, applyStaticHeight := false }

/-- `onStart` (lines 92-98): notify the gate, and when the gate did not
say animate-immediately (`!immediateAnimation`), pin the container
(`setApplyStaticHeight(true)`).  Both reads use the value of
`immediateAnimation` at the time the callback was created. -/
def onStart (s : ContentAnimState) : ContentAnimState :=
  { immediateAnimation := markAnimationObserved s.immediateAnimation
    applyStaticHeight :=
      if !s.immediateAnimation then true else s.applyStaticHeight }

/-- `onRest` (lines 167-171): release the pin
(`setApplyStaticHeight(false)`) only when the completed phase is
`update`. -/
def onRest (status : SpringPhase) (s : ContentAnimState) :
    ContentAnimState :=
  if status = SpringPhase.update then
    { s with applyStaticHeight := false }
  else s

/-- A CSS height: automatic sizing or a fixed pixel value. -/
inductive CssHeight
  | auto
  | px (h : Int)
deriving DecidableEq, Repr

/-- The container's height style (line 143):
`applyStaticHeight ? height : 'auto'`, where `height` is the spring's
tweened value. -/
def containerHeight (s : ContentAnimState) (springHeight : Int) : CssHeight :=
  if s.applyStaticHeight then CssHeight.px springHeight else CssHeight.auto

/-- One rendered transition slot: the screen's title and its clamped
width (lines 180-199). -/
structure RenderedSlot where
  title : String
  width : Int
deriving DecidableEq, Repr

/-- The render callback of the `Transition` (lines 175-202):
`getScreen(step)` is looked up and, when it is undefined
(`stepScreen && ...`), the slot renders nothing; otherwise the screen
is rendered at width `Math.min(viewportWidth, stepScreen.width ||
DEFAULT_MODAL_WIDTH)`. -/
def renderTransitionSlot (screensState : List ScreenDescriptor)
    (viewportWidth : Int) (step : Nat) : Option RenderedSlot :=
  match getScreen screensState step with
  | none => none
  | some sc => some { title := sc.title
                      width := renderedScreenWidth viewportWidth sc }

/-- Claim C4: the animate-immediately flag is true before the first
animation-start notification and false after every positive number of
notifications, for the life of the instance. -/
theorem deferred_animation_gate (k : Nat) (hk : 1 ≤ k) :
    (markAnimationObserved^[0] gateInit = true) ∧
    (markAnimationObserved^[k] gateInit = false) := by
  refine ⟨rfl, ?_⟩
  obtain ⟨j, rfl⟩ : ∃ j, k = j + 1 := ⟨k - 1, by omega⟩
  rw [Function.iterate_succ_apply']
  unfold markAnimationObserved
  simp

/-- Witness for C4 at `k = 5`. -/
theorem deferred_animation_gate_witness :
    (1 ≤ 5) ∧ (markAnimationObserved^[5] gateInit = false) :=
  ⟨by decide, (deferred_animation_gate 5 (by decide)).2⟩

/-- Claim C5: on transition start, if the gate says animate-immediately
pinning is skipped (an unpinned container stays at automatic sizing);
otherwise the container is pinned to the spring's tweened height; the
pin is released exactly by the `update` phase of `onRest`, not by the
`enter` or `leave` phases. -/
theorem height_reconciler (s : ContentAnimState) (h : Int) :
    (s.immediateAnimation = true →
      (onStart s).applyStaticHeight = s.applyStaticHeight ∧
      (s.applyStaticHeight = false →
        containerHeight (onStart s) h = CssHeight.auto)) ∧
    (s.immediateAnimation = false →
      (onStart s).applyStaticHeight = true ∧
      containerHeight (onStart s) h = CssHeight.px h) ∧
    ((onRest SpringPhase.update s).applyStaticHeight = false ∧
      containerHeight (onRest SpringPhase.update s) h = CssHeight.auto) ∧
    (onRest SpringPhase.enter s = s) ∧
    (onRest SpringPhase.leave s = s) := by
  refine ⟨?_, ?_, ⟨rfl, rfl⟩, rfl, rfl⟩
  · intro hi
    constructor
    · unfold onStart
      rw [hi]
      rfl
    · intro hp
      unfold containerHeight onStart
      rw [hi, hp]
      rfl
  · intro hi
    unfold onStart containerHeight
    rw [hi]
    exact ⟨rfl, rfl⟩

/-- Witness for C5: on first mount (gate true, unpinned) a transition
start leaves the container at automatic sizing; after the gate has
flipped, a transition start pins the container to the tweened height
and the `update` settle releases it. -/
theorem height_reconciler_witness :
    ((onStart initContentAnim).applyStaticHeight
      = initContentAnim.applyStaticHeight) ∧
    (containerHeight (onStart (onStart initContentAnim)) 120
      = CssHeight.px 120) ∧
    (containerHeight
      (onRest SpringPhase.update (onStart (onStart initContentAnim))) 120
      = CssHeight.auto) :=
  ⟨((height_reconciler initContentAnim 120).1 rfl).1,
    ((height_reconciler (onStart initContentAnim) 120).2.1 rfl).2,
    (height_reconciler (onStart (onStart initContentAnim)) 120).2.2.1.2⟩

/-- Claim C9: for an index outside the current screen list,
`getScreen` returns undefined (`none`) and the shell renders nothing
for that transition slot (a total function, so no exception). -/
theorem out_of_range_slot (screensState : List ScreenDescriptor)
    (V : Int) (i : Nat) (hi : screensState.length ≤ i) :
    getScreen screensState i = none ∧
    renderTransitionSlot screensState V i = none := by
  have h : getScreen screensState i = none := by
    unfold getScreen
    exact List.getElem?_eq_none hi
  refine ⟨h, ?_⟩
  unfold renderTransitionSlot
  rw [h]

/-- Witness for C9: the screen list `[A, B, C]` is replaced
mid-transition (in-flight step index 2) by the shorter `[X, Y]`; the
slot for step 2 renders nothing. -/
theorem out_of_range_slot_witness :
    ([({ title := "X" } : ScreenDescriptor), { title := "Y" }].length ≤ 2) ∧
    (renderTransitionSlot
      [({ title := "X" } : ScreenDescriptor), { title := "Y" }] 300 2
      = none) :=
  ⟨by decide,
    (out_of_range_slot
      [({ title := "X" } : ScreenDescriptor), { title := "Y" }] 300 2
      (by decide)).2⟩

end MultiScreenModal
